import Mathlib

/-!
Verification of the pulumi-sendgrid repository against its specification.

The repository supplies a single example script,
`examples/python/__main__.py`, which declares SendGrid infrastructure
resources through the Pulumi SDK and exports their ids.  The first part of
this file embeds that script as declarative data (resource type, logical
name, property bag — exactly what the script passes to the framework).

The provider core described by the specification (schema registry, diff
engine, CRUD orchestrator, per-identity serialization) is not part of the
supplied source; the second part models it from the specification so its
stated properties can be settled.
-/

namespace PulumiSendgrid

/-- A property value in a resource's property bag: the example script only
uses strings, booleans and lists of strings. -/
inductive PropValue where
  | str (s : String)
  | bool (b : Bool)
  | strList (l : List String)
deriving DecidableEq

/-- A property bag: key → typed value. -/
abbrev PropBag := List (String × PropValue)

/-- One resource declaration of the example program: the SDK resource type,
the caller-chosen logical name (first positional argument) and the keyword
arguments as a property bag. -/
structure ResourceDecl where
  rtype : String
  logicalName : String
  props : PropBag
deriving DecidableEq

/-- `sendgrid.ApiKey("myApiKey", name=..., scopes=...)` — lines 4–7 of
`examples/python/__main__.py`. -/
def my_api_key : ResourceDecl :=
  { rtype := "sendgrid.ApiKey"
    logicalName := "myApiKey"
    props := [("name", .str "my-app-api-key"),
              ("scopes", .strList ["mail.send", "alerts.read"])] }

/-- `sendgrid.Template("myTemplate", ...)` — lines 9–12. -/
def my_template : ResourceDecl :=
  { rtype := "sendgrid.Template"
    logicalName := "myTemplate"
    props := [("name", .str "welcome-email"),
              ("generation", .str "dynamic")] }

/-- `sendgrid.EventWebhook("myEventWebhook", ...)` — lines 14–24. -/
def my_event_webhook : ResourceDecl :=
  { rtype := "sendgrid.EventWebhook"
    logicalName := "myEventWebhook"
    props := [("url", .str "https://example.com/webhooks/sendgrid"),
              ("friendly_name", .str "My App Webhook"),
              ("enabled", .bool false),
              ("delivered", .bool true),
              ("open", .bool true),
              ("click", .bool true),
              ("bounce", .bool true),
              ("dropped", .bool true),
              ("spam_report", .bool true)] }

/-- `sendgrid.DomainAuthentication("myDomainAuth", ...)` — lines 26–29. -/
def my_domain_auth : ResourceDecl :=
  { rtype := "sendgrid.DomainAuthentication"
    logicalName := "myDomainAuth"
    props := [("domain", .str "example.com"),
              ("automatic_security", .bool true)] }

/-- The resource declarations of the example program, in source order. -/
def exampleResources : List ResourceDecl :=
  [my_api_key, my_template, my_event_webhook, my_domain_auth]

/-- One `pulumi.export` call: the stack-output name, the logical name of the
resource whose attribute is exported, and the attribute's name. -/
structure ExportDecl where
  outputName : String
  sourceResource : String
  attrName : String
deriving DecidableEq

/-- The four `pulumi.export` calls — lines 31–34 of the example script. -/
def exampleExports : List ExportDecl :=
  [{ outputName := "apiKeyId", sourceResource := "myApiKey", attrName := "api_key_id" },
   { outputName := "templateId", sourceResource := "myTemplate", attrName := "template_id" },
   { outputName := "webhookId", sourceResource := "myEventWebhook", attrName := "webhook_id" },
   { outputName := "domainId", sourceResource := "myDomainAuth", attrName := "domain_id" }]

/-- The provider-assigned id attribute each SDK resource type exposes, as
used by the export lines of the example script. -/
def idAttr : String → String
  | "sendgrid.ApiKey" => "api_key_id"
  | "sendgrid.Template" => "template_id"
  | "sendgrid.EventWebhook" => "webhook_id"
  | "sendgrid.DomainAuthentication" => "domain_id"
  | _ => "id"

/-- The files supplied with the repository, relative to its root. -/
def sourceFiles : List String := ["examples/python/__main__.py"]

/-- The text of `examples/python/__main__.py`, one entry per line
(the file ends without a trailing newline on its 34th line). -/
def sourceLines : List String :=
  [ "import pulumi",
    "import pulumi_sendgrid as sendgrid",
    "",
    "my_api_key = sendgrid.ApiKey(\"myApiKey\",",
    "    name=\"my-app-api-key\",",
    "    scopes=[\"mail.send\", \"alerts.read\"],",
    ")",
    "",
    "my_template = sendgrid.Template(\"myTemplate\",",
    "    name=\"welcome-email\",",
    "    generation=\"dynamic\",",
    ")",
    "",
    "my_event_webhook = sendgrid.EventWebhook(\"myEventWebhook\",",
    "    url=\"https://example.com/webhooks/sendgrid\",",
    "    friendly_name=\"My App Webhook\",",
    "    enabled=False,",
    "    delivered=True,",
    "    open=True,",
    "    click=True,",
    "    bounce=True,",
    "    dropped=True,",
    "    spam_report=True,",
    ")",
    "",
    "my_domain_auth = sendgrid.DomainAuthentication(\"myDomainAuth\",",
    "    domain=\"example.com\",",
    "    automatic_security=True,",
    ")",
    "",
    "pulumi.export(\"apiKeyId\", my_api_key.api_key_id)",
    "pulumi.export(\"templateId\", my_template.template_id)",
    "pulumi.export(\"webhookId\", my_event_webhook.webhook_id)",
    "pulumi.export(\"domainId\", my_domain_auth.domain_id)" ]

/-!
The provider core.  No provider implementation is present in the supplied
source — it sits in the external `pulumi_sendgrid` SDK and its backing
provider — so the definitions below are modelled from the specification
(§3–§5, §7) and marked as such.
-/

/-- Modelled from the spec: the error taxonomy of §7; the provider
implementation carrying it is missing from the supplied source. -/
inductive ProviderError where
  | ValidationError
  | NotFound
  | AlreadyExists
  | Conflict
  | TransientError
  | RemoteRejected
deriving DecidableEq

/-- Modelled from the spec: a ResourceSpec (§3) — type name, caller-assigned
logical name, property bag, optional explicit identity override; the
provider implementation carrying it is missing from the supplied source. -/
structure ResourceSpec where
  typeName : String
  logicalName : String
  props : PropBag
  identityOverride : Option String
deriving DecidableEq

/-- Modelled from the spec: a ResourceState (§3) — remote identity
(provider-assigned ID) and last-observed property bag. -/
structure ResourceState where
  identity : String
  props : PropBag
deriving DecidableEq

/-- Modelled from the spec: a resource type's property schema in the
Resource Schema Registry (§4.1) — required and optional fields, plus the
fields whose change is in-place-updatable (§4.2). -/
structure Schema where
  requiredFields : List String
  optionalFields : List String
  updatableFields : List String
deriving DecidableEq

/-- Modelled from the spec: the static registry table (§4.1) for the four
resource types the example program uses; scopes of an ApiKey is updatable
per the §8 example scenario. -/
def registry : List (String × Schema) :=
  [("sendgrid.ApiKey",
    { requiredFields := ["name"], optionalFields := ["scopes"],
      updatableFields := ["name", "scopes"] }),
   ("sendgrid.Template",
    { requiredFields := ["name"], optionalFields := ["generation"],
      updatableFields := ["name"] }),
   ("sendgrid.EventWebhook",
    { requiredFields := ["url"],
      optionalFields := ["friendly_name", "enabled", "delivered", "open",
                         "click", "bounce", "dropped", "spam_report"],
      updatableFields := ["url", "friendly_name", "enabled", "delivered",
                          "open", "click", "bounce", "dropped", "spam_report"] }),
   ("sendgrid.DomainAuthentication",
    { requiredFields := ["domain"], optionalFields := ["automatic_security"],
      updatableFields := [] })]

/-- Modelled from the spec: `lookup(typeName) → Schema | NotFound` (§4.1). -/
def lookupSchema (reg : List (String × Schema)) (t : String) :
    Except ProviderError Schema :=
  match reg.lookup t with
  | some sch => Except.ok sch
  | none => Except.error ProviderError.NotFound

/-- Modelled from the spec: schema validation (§4.1) — reject missing
required fields and unknown fields before any remote call is attempted. -/
def validateSpec (sch : Schema) (s : ResourceSpec) : Bool :=
  sch.requiredFields.all (fun f => (s.props.lookup f).isSome) &&
  s.props.all (fun p =>
    sch.requiredFields.contains p.1 || sch.optionalFields.contains p.1)

/-- Modelled from the spec: the remote service's state, as the CRUD
Orchestrator observes it — one remote entity per identity, plus a counter
for provider-assigned fresh ids. -/
structure Store where
  entities : List (String × PropBag)
  nextId : Nat
deriving DecidableEq

/-- Modelled from the spec: the identity a `create` uses — the explicit
identity override when the spec carries one (§3), a provider-assigned fresh
id otherwise. -/
def resolveIdentity (st : Store) (s : ResourceSpec) : String :=
  match s.identityOverride with
  | some i => i
  | none => "id_" ++ toString st.nextId

/-- Modelled from the spec: the CRUD Orchestrator's `create` (§4.3) — fails
with `AlreadyExists` on identity collision, otherwise records exactly one
remote entity and returns its ResourceState. -/
def create (st : Store) (s : ResourceSpec) :
    Except ProviderError (Store × ResourceState) :=
  let id := resolveIdentity st s
  match st.entities.lookup id with
  | some _ => Except.error ProviderError.AlreadyExists
  | none =>
      Except.ok ({ entities := (id, s.props) :: st.entities, nextId := st.nextId + 1 },
                 { identity := id, props := s.props })

/-- Modelled from the spec: the CRUD Orchestrator's `read` (§4.3) — returns
the last-observed ResourceState, surfacing an absent remote entity as the
"missing" condition `NotFound` (§3). -/
def read (st : Store) (id : String) : Except ProviderError ResourceState :=
  match st.entities.lookup id with
  | some props => Except.ok { identity := id, props := props }
  | none => Except.error ProviderError.NotFound

/-- Modelled from the spec: the CRUD Orchestrator's `update` (§4.3) —
replaces the property bag wholesale (§3), fails with `NotFound` when the
remote entity is absent. -/
def update (st : Store) (id : String) (props : PropBag) :
    Except ProviderError (Store × ResourceState) :=
  match st.entities.lookup id with
  | some _ =>
      Except.ok ({ st with entities :=
                    (id, props) :: st.entities.filter (fun e => !(e.1 == id)) },
                 { identity := id, props := props })
  | none => Except.error ProviderError.NotFound

/-- Modelled from the spec: the CRUD Orchestrator's `delete` (§4.3) — fails
with `NotFound` when the remote entity is absent. -/
def delete (st : Store) (id : String) : Except ProviderError Store :=
  match st.entities.lookup id with
  | some _ =>
      Except.ok { st with entities := st.entities.filter (fun e => !(e.1 == id)) }
  | none => Except.error ProviderError.NotFound

/-- Modelled from the spec: the tri-state classification of one property
change (§4.2): unchanged, in-place-updatable, or requires-replace. -/
inductive PropChange where
  | unchanged
  | updatable
  | requiresReplace
deriving DecidableEq

/-- Modelled from the spec: a ChangeSet — the computed diff between desired
and observed state, classified per property (glossary). -/
abbrev ChangeSet := List (String × PropChange)

/-- The property names mentioned by either of two property bags, without
duplicates, in first-occurrence order. -/
def fieldUniverse (old new : PropBag) : List String :=
  (old.map Prod.fst ++ new.map Prod.fst).dedup

/-- Modelled from the spec: the Diff Engine's per-property classification
(§4.2) — unchanged when old and new values agree, updatable when the schema
declares the field in-place-updatable, requires-replace otherwise. -/
def classifyField (sch : Schema) (old new : PropBag) (f : String) : PropChange :=
  if old.lookup f == new.lookup f then PropChange.unchanged
  else if sch.updatableFields.contains f then PropChange.updatable
  else PropChange.requiresReplace

/-- Modelled from the spec: `diff(old: ResourceState, new: ResourceSpec) →
ChangeSet` (§4.2), a pure function of its inputs. -/
def diff (sch : Schema) (old : ResourceState) (new : ResourceSpec) : ChangeSet :=
  (fieldUniverse old.props new.props).map
    (fun f => (f, classifyField sch old.props new.props f))

/-- Does the ChangeSet classify some property as requires-replace? -/
def changeSetRequiresReplace (cs : ChangeSet) : Bool :=
  cs.any (fun c => c.2 == PropChange.requiresReplace)

/-- Does the ChangeSet classify some property as in-place-updatable? -/
def changeSetHasUpdate (cs : ChangeSet) : Bool :=
  cs.any (fun c => c.2 == PropChange.updatable)

/-- A step of an execution plan: one call issued to the remote API. -/
inductive PlanStep where
  | createStep
  | updateStep
  | deleteStep
deriving DecidableEq

/-- Modelled from the spec: the plan built from a ChangeSet (§4.2) — a
replace-required change deletes-then-creates (or creates-then-deletes, per
the resource-specific ordering flag), an updatable-only change updates
in place, and an unchanged ChangeSet is a no-op. -/
def plan (deleteBeforeCreate : Bool) (cs : ChangeSet) : List PlanStep :=
  if changeSetRequiresReplace cs then
    if deleteBeforeCreate then [PlanStep.deleteStep, PlanStep.createStep]
    else [PlanStep.createStep, PlanStep.deleteStep]
  else if changeSetHasUpdate cs then [PlanStep.updateStep]
  else []

/-- Outcome of one operation in the concurrency model. -/
inductive OpOutcome where
  | succeeded
  | failedNotFound
  | failedConflict
deriving DecidableEq

/-- Outcome of running `update` against the store. -/
def outcomeOfUpdate (st : Store) (id : String) (props : PropBag) : OpOutcome :=
  match update st id props with
  | Except.ok _ => OpOutcome.succeeded
  | Except.error _ => OpOutcome.failedNotFound

/-- Outcome of running `delete` against the store. -/
def outcomeOfDelete (st : Store) (id : String) : OpOutcome :=
  match delete st id with
  | Except.ok _ => OpOutcome.succeeded
  | Except.error _ => OpOutcome.failedNotFound

/-- Modelled from the spec: per-identity serialization (§5) — an `update`
and a `delete` arrive concurrently for the same identity; the boolean
chooses which of the two acquires the per-identity operation lock, the
other is rejected with `Conflict` rather than racing.  Returns the
update's outcome paired with the delete's outcome. -/
def runConcurrentUpdateDelete (st : Store) (id : String) (props : PropBag)
    (updateFirst : Bool) : OpOutcome × OpOutcome :=
  if updateFirst then (outcomeOfUpdate st id props, OpOutcome.failedConflict)
  else (OpOutcome.failedConflict, outcomeOfDelete st id)

/-- How many remote entities the store holds for a given identity. -/
def countId (l : List (String × PropBag)) (id : String) : Nat :=
  (l.filter (fun e => e.1 == id)).length

/-- A concrete empty store, used to instantiate the proved properties. -/
def demoStore : Store := { entities := [], nextId := 0 }

/-- The ApiKey schema of the registry, as a standalone value. -/
def apiKeySchema : Schema :=
  { requiredFields := ["name"], optionalFields := ["scopes"],
    updatableFields := ["name", "scopes"] }

/-- A concrete valid ApiKey spec (the §8 scenario's initial spec). -/
def demoSpec : ResourceSpec :=
  { typeName := "sendgrid.ApiKey", logicalName := "myApiKey",
    props := [("name", PropValue.str "my-app-api-key"),
              ("scopes", PropValue.strList ["mail.send"])],
    identityOverride := none }

/-- A concrete observed state (the §8 scenario's created state). -/
def demoState : ResourceState :=
  { identity := "key_123",
    props := [("name", PropValue.str "my-app-api-key"),
              ("scopes", PropValue.strList ["mail.send"])] }

/-- The §8 scenario's follow-up spec with the widened scope list. -/
def demoSpec2 : ResourceSpec :=
  { demoSpec with
    props := [("name", PropValue.str "my-app-api-key"),
              ("scopes", PropValue.strList ["mail.send", "alerts.read"])] }

/-!
Claims about the example program's declarative content.
-/

/-- Claim C1, counterexample: no resource declaration of the example
program is an unrelated "random" demo resource — every declared resource
type is one of the four SendGrid types, so the claimed extra resource does
not exist in the supplied source. -/
theorem no_random_demo_resource :
    ¬ ∃ d, d ∈ exampleResources ∧
        d.rtype ≠ "sendgrid.ApiKey" ∧ d.rtype ≠ "sendgrid.Template" ∧
        d.rtype ≠ "sendgrid.EventWebhook" ∧
        d.rtype ≠ "sendgrid.DomainAuthentication" := by
  decide

/-- Claim C1 (amended): the supplied source is the single example
invocation script, and the infrastructure resources it declares are exactly
one API key, one template, one event webhook and one domain authentication
— no "random" demo resource. -/
theorem example_source_is_four_sendgrid_resources :
    sourceFiles = ["examples/python/__main__.py"] ∧
    exampleResources.map ResourceDecl.rtype =
      ["sendgrid.ApiKey", "sendgrid.Template",
       "sendgrid.EventWebhook", "sendgrid.DomainAuthentication"] := by
  decide

/-- Claim C2, counterexample: the `myApiKey` declaration's property bag
does not carry `scopes=["mail.send"]` — it carries both scopes at once. -/
theorem my_api_key_not_single_scope :
    ¬ my_api_key.props.lookup "scopes" =
        some (PropValue.strList ["mail.send"]) := by
  decide

/-- Claim C2 (amended): the example program's one and only `myApiKey`
ApiKey declaration carries `scopes=["mail.send", "alerts.read"]` in its
single property bag; no earlier spec with only `mail.send` and no separate
updated spec appear. -/
theorem my_api_key_scopes_declared_once :
    my_api_key.rtype = "sendgrid.ApiKey" ∧
    my_api_key.logicalName = "myApiKey" ∧
    my_api_key.props.lookup "scopes" =
      some (PropValue.strList ["mail.send", "alerts.read"]) ∧
    exampleResources.filter (fun d => d.logicalName == "myApiKey") =
      [my_api_key] := by
  decide

/-- Claim C3, counterexample: the supplied source does not total 43
lines. -/
theorem source_not_43_lines : ¬ sourceLines.length = 43 := by
  decide

/-- Claim C3 (amended): the supplied source content totals exactly 34
lines, all of them in the single example script. -/
theorem source_is_34_lines :
    sourceLines.length = 34 ∧
    sourceFiles = ["examples/python/__main__.py"] := by
  decide

/-- Claim C4: every resource declaration of the example program assigns a
non-empty caller-chosen logical name, and the logical names are pairwise
distinct across the program's declarations. -/
theorem logical_names_assigned_and_distinct :
    (exampleResources.all (fun d => !d.logicalName.isEmpty)) = true ∧
    (exampleResources.map ResourceDecl.logicalName).Nodup := by
  decide

/-- Claim C10: the example program declares exactly four resources — one
ApiKey, one Template, one EventWebhook, one DomainAuthentication — and
exports exactly four stack outputs named apiKeyId, templateId, webhookId
and domainId, each bound to the provider-assigned id attribute of the
declared resource it references. -/
theorem example_program_shape :
    exampleResources.map ResourceDecl.rtype =
      ["sendgrid.ApiKey", "sendgrid.Template",
       "sendgrid.EventWebhook", "sendgrid.DomainAuthentication"] ∧
    exampleExports.map ExportDecl.outputName =
      ["apiKeyId", "templateId", "webhookId", "domainId"] ∧
    (exampleExports.all (fun e =>
      exampleResources.any (fun d =>
        d.logicalName == e.sourceResource && e.attrName == idAttr d.rtype))) = true := by
  decide

/-!
Claims about the spec-modelled provider core.
-/

/-- Helper: a key that `lookup` misses has no entity in the store. -/
theorem lookup_none_countId (l : List (String × PropBag)) (k : String)
    (h : l.lookup k = none) : countId l k = 0 := by
  induction l with
  | nil => rfl
  | cons a l ih =>
    obtain ⟨ak, av⟩ := a
    by_cases hk : k = ak
    · subst hk; simp [List.lookup] at h
    · have hk1 : (k == ak) = false := beq_eq_false_iff_ne.mpr hk
      have hk2 : (ak == k) = false := beq_eq_false_iff_ne.mpr (Ne.symm hk)
      simp only [List.lookup, hk1] at h
      simpa [countId, hk2] using ih h

/-- Helper: entity count of an extended store. -/
theorem countId_cons (a : String × PropBag) (l : List (String × PropBag))
    (i : String) :
    countId (a :: l) i = (if a.1 == i then 1 else 0) + countId l i := by
  by_cases h : a.1 == i
  · simp [countId, List.filter_cons, h]
    omega
  · simp [countId, List.filter_cons, h]

/-- Claim C5: for every valid ResourceSpec (its type is in the registry and
it passes schema validation), a successful `create` followed by `read` on
the returned identity yields a ResourceState whose property bag equals the
spec's. -/
theorem create_read_roundtrip (st : Store) (s : ResourceSpec) (sch : Schema)
    (st' : Store) (rs : ResourceState)
    (_hsch : lookupSchema registry s.typeName = Except.ok sch)
    (_hvalid : validateSpec sch s = true)
    (hc : create st s = Except.ok (st', rs)) :
    read st' rs.identity = Except.ok rs ∧ rs.props = s.props := by
  cases hl : st.entities.lookup (resolveIdentity st s) with
  | some v => simp [create, hl] at hc
  | none =>
    simp only [create, hl, Except.ok.injEq, Prod.mk.injEq] at hc
    obtain ⟨h1, h2⟩ := hc
    subst h1; subst h2
    simp [read, List.lookup]

/-- Witness for C5 at a concrete input: creating the §8 ApiKey spec in the
empty store and reading back the assigned identity returns its property
bag. -/
theorem create_read_roundtrip_witness :
    read { entities := [("id_0", demoSpec.props)], nextId := 1 } "id_0" =
      Except.ok { identity := "id_0", props := demoSpec.props } ∧
    ResourceState.props { identity := "id_0", props := demoSpec.props } =
      demoSpec.props :=
  create_read_roundtrip demoStore demoSpec apiKeySchema
    { entities := [("id_0", demoSpec.props)], nextId := 1 }
    { identity := "id_0", props := demoSpec.props }
    rfl (by decide) rfl

/-- Claim C6: a `create` whose identity already exists in the store is
rejected with `AlreadyExists`; and every successful `create` preserves
"at most one remote entity per identity", so a repeated create never
produces two remote entities. -/
theorem create_collision_rejected (st : Store) (s : ResourceSpec) (id : String)
    (hover : s.identityOverride = some id)
    (hex : (st.entities.lookup id).isSome = true) :
    create st s = Except.error ProviderError.AlreadyExists ∧
    ∀ (t : Store) (r : ResourceSpec) (t' : Store) (rs : ResourceState),
      create t r = Except.ok (t', rs) →
      (∀ i, countId t.entities i ≤ 1) →
      (∀ i, countId t'.entities i ≤ 1) := by
  constructor
  · have hid : resolveIdentity st s = id := by simp [resolveIdentity, hover]
    obtain ⟨v, hv⟩ := Option.isSome_iff_exists.mp hex
    simp [create, hid, hv]
  · intro t r t' rs hc hinv i
    cases hl : t.entities.lookup (resolveIdentity t r) with
    | some v => simp [create, hl] at hc
    | none =>
      simp only [create, hl, Except.ok.injEq, Prod.mk.injEq] at hc
      obtain ⟨h1, _⟩ := hc
      subst h1
      rw [countId_cons]
      by_cases hi : resolveIdentity t r = i
      · subst hi
        rw [lookup_none_countId _ _ hl]
        simp
      · rw [beq_eq_false_iff_ne.mpr hi]
        simpa using hinv i

/-- Witness for C6 at a concrete input: re-creating identity `key_123` in a
store that already holds it fails with `AlreadyExists`. -/
theorem create_collision_rejected_witness :
    create { entities := [("key_123", demoSpec.props)], nextId := 1 }
        { typeName := "sendgrid.ApiKey", logicalName := "myApiKey",
          props := demoSpec.props, identityOverride := some "key_123" } =
      Except.error ProviderError.AlreadyExists :=
  (create_collision_rejected
    { entities := [("key_123", demoSpec.props)], nextId := 1 }
    { typeName := "sendgrid.ApiKey", logicalName := "myApiKey",
      props := demoSpec.props, identityOverride := some "key_123" }
    "key_123" rfl (by decide)).1

/-- Claim C7: the diff engine is deterministic — two evaluations of `diff`
on equal inputs yield the same ChangeSet, since `diff` is a pure function
of the schema, the old ResourceState and the new ResourceSpec. -/
theorem diff_deterministic (sch1 sch2 : Schema) (old1 old2 : ResourceState)
    (new1 new2 : ResourceSpec)
    (hs : sch1 = sch2) (ho : old1 = old2) (hn : new1 = new2) :
    diff sch1 old1 new1 = diff sch2 old2 new2 := by
  subst hs; subst ho; subst hn; rfl

/-- Witness for C7 at a concrete input: two evaluations of `diff` on the §8
scenario's state and follow-up spec agree. -/
theorem diff_deterministic_witness :
    diff apiKeySchema demoState demoSpec2 =
      diff apiKeySchema demoState demoSpec2 :=
  diff_deterministic apiKeySchema apiKeySchema demoState demoState
    demoSpec2 demoSpec2 rfl rfl rfl

/-- Claim C8: when a ChangeSet classifies some property as
requires-replace, the execution plan contains no in-place update call — it
is delete-then-create or create-then-delete. -/
theorem replace_never_in_place_update (b : Bool) (cs : ChangeSet)
    (h : changeSetRequiresReplace cs = true) :
    PlanStep.updateStep ∉ plan b cs ∧
    (plan b cs = [PlanStep.deleteStep, PlanStep.createStep] ∨
     plan b cs = [PlanStep.createStep, PlanStep.deleteStep]) := by
  cases b <;> simp [plan, h]

/-- Witness for C8 at a concrete input: a ChangeSet replacing the `domain`
property yields a delete-then-create plan with no update step. -/
theorem replace_never_in_place_update_witness :
    PlanStep.updateStep ∉ plan true [("domain", PropChange.requiresReplace)] ∧
    (plan true [("domain", PropChange.requiresReplace)] =
        [PlanStep.deleteStep, PlanStep.createStep] ∨
     plan true [("domain", PropChange.requiresReplace)] =
        [PlanStep.createStep, PlanStep.deleteStep]) :=
  replace_never_in_place_update true [("domain", PropChange.requiresReplace)]
    (by decide)

/-- Claim C9: when an `update` and a `delete` run concurrently on the same
existing identity, whichever interleaving the per-identity lock resolves
to, exactly one operation succeeds and the other fails with `Conflict`. -/
theorem concurrent_update_delete_exclusive (st : Store) (id : String)
    (props : PropBag) (updateFirst : Bool)
    (hex : (st.entities.lookup id).isSome = true) :
    runConcurrentUpdateDelete st id props updateFirst =
        (OpOutcome.succeeded, OpOutcome.failedConflict) ∨
    runConcurrentUpdateDelete st id props updateFirst =
        (OpOutcome.failedConflict, OpOutcome.succeeded) := by
  obtain ⟨v, hv⟩ := Option.isSome_iff_exists.mp hex
  cases updateFirst
  · right
    simp [runConcurrentUpdateDelete, outcomeOfDelete, delete, hv]
  · left
    simp [runConcurrentUpdateDelete, outcomeOfUpdate, update, hv]

/-- Witness for C9 at a concrete input: with `key_123` present and the
update acquiring the lock first, the update succeeds and the delete gets
`Conflict` (or symmetrically — the disjunction instantiated). -/
theorem concurrent_update_delete_exclusive_witness :
    runConcurrentUpdateDelete { entities := [("key_123", demoSpec.props)], nextId := 1 }
        "key_123" demoSpec2.props true =
      (OpOutcome.succeeded, OpOutcome.failedConflict) ∨
    runConcurrentUpdateDelete { entities := [("key_123", demoSpec.props)], nextId := 1 }
        "key_123" demoSpec2.props true =
      (OpOutcome.failedConflict, OpOutcome.succeeded) :=
  concurrent_update_delete_exclusive
    { entities := [("key_123", demoSpec.props)], nextId := 1 }
    "key_123" demoSpec2.props true (by decide)

end PulumiSendgrid
